import Mathlib

/-!
Shallow embedding of the heimdall decision core: the rule repository and its
change-event processing (package `rules`), the rule execution pipeline, the
JWT authenticator (package `authenticators`) and the query-parameter
auth-data extraction strategy (package `extractors`).

Go conventions are modelled as follows: a Go `error` value is the inductive
`GoErr` (nil errors become `Option.none` where a nil error is meaningful);
functions returning `(T, error)` become `Except GoErr T`; `json.RawMessage`
payloads that are only ever inspected as JSON are modelled as parsed `Json`
values; byte slices that are only passed through are modelled as `String`.
External third-party libraries (yaml, go-jose crypto) are not code of this
repository: their calls are modelled as explicit function parameters so the
theorems quantify over every possible behaviour of the library.
-/

namespace Heimdall

/-- A JSON value, modelling Go `interface\x7b\x7d` values decoded from JSON and
`json.RawMessage` payloads (numbers are modelled as integers; the claims never
inspect numeric values). -/
inductive Json where
  | null : Json
  | bool (b : Bool) : Json
  | num (n : Int) : Json
  | str (s : String) : Json
  | arr (xs : List Json) : Json
  | obj (fields : List (String × Json)) : Json

/-- Go `error` values produced in the embedded code. `simple` is
`errors.New`/`fmt.Errorf` without a cause, `wrapped` is `fmt.Errorf` with a
`%w` cause, `argument` is `errorsx.ArgumentError\x7bMessage, Cause\x7d`,
`unauthorized` is `errorsx.UnauthorizedError`, and `authDataMissing` is an
`errorchain` error based on `extractors.ErrAuthData`. -/
inductive GoErr where
  | simple (msg : String) : GoErr
  | wrapped (msg : String) (cause : GoErr) : GoErr
  | argument (msg : String) (cause : GoErr) : GoErr
  | unauthorized (msg : String) (cause : GoErr) : GoErr
  | authDataMissing (msg : String) : GoErr
deriving DecidableEq, Repr

/-- `heimdall.Subject`: resolved identity id plus attributes (a Go
`map[string]interface\x7b\x7d`, modelled as an association list). -/
structure Subject where
  id : String
  attributes : List (String × Json)

/-- `heimdall.SubjectContext`: the per-request mutable container threaded
through the pipeline stages. -/
structure SubjectContext where
  subject : Option Subject := none

/-- `handler.RequestContext`: read-only accessors of the incoming request used
by the extraction strategies. An absent header/parameter yields `""`, exactly
like Go's accessors. -/
structure RequestContext where
  header : String → String
  query : String → String
  form : String → String

/-- Go `strings.TrimPrefix`: drops the prefix when present, otherwise returns
the string unchanged (modelled over the character list so it evaluates by
kernel reduction). -/
def dropPfx (s p : String) : String :=
  if p.toList.isPrefixOf s.toList then
    String.mk (s.toList.drop p.toList.length)
  else s

/-- Go `strings.TrimSpace`: drops whitespace from both ends (modelled over
the character list so it evaluates by kernel reduction). -/
def trimSpace (s : String) : String :=
  String.mk
    (((s.toList.dropWhile Char.isWhitespace).reverse.dropWhile
      Char.isWhitespace).reverse)

/-- Go `strings.Count(s, ".")`: the number of dots in `s`. -/
def countDots (s : String) : Nat :=
  s.toList.count '.'

/-! ## Auth-data extraction strategies (package `extractors`) -/

/-- `extractors.QueryParameterExtractStrategy` (the `Prefix` field is named
`pfx`: `prefix` is not a usable identifier in Lean). -/
structure QueryParameterExtractStrategy where
  name : String
  pfx : String

/-- `QueryParameterExtractStrategy.GetAuthData`: returns the named query
parameter with the configured prefix stripped and whitespace trimmed, or an
`ErrAuthData`-based error when the value is empty. -/
def QueryParameterExtractStrategy.getAuthData
    (es : QueryParameterExtractStrategy) (s : RequestContext) :
    Except GoErr String :=
  let val := s.query es.name
  if val.length ≠ 0 then
    Except.ok (trimSpace (dropPfx val es.pfx))
  else
    Except.error (GoErr.authDataMissing
      ("no '" ++ es.name ++ "' query parameter present"))

/-- Modelled from the spec: `extractors.HeaderValueExtractStrategy` is not
under `src/` (only referenced by `NewJwtAuthenticatorFromYAML`); per §4.3 it
reads a named header, strips a configured prefix, trims whitespace, and fails
when the header is absent. -/
def headerValueExtract (name pfx : String) (rc : RequestContext) :
    Except GoErr String :=
  let val := rc.header name
  if val.length ≠ 0 then
    Except.ok (trimSpace (dropPfx val pfx))
  else
    Except.error (GoErr.authDataMissing ("no '" ++ name ++ "' header present"))

/-- Modelled from the spec: `extractors.FormParameterExtractStrategy` is not
under `src/`; per §4.3 it reads a named form parameter and fails when absent. -/
def formParameterExtract (name : String) (rc : RequestContext) :
    Except GoErr String :=
  let val := rc.form name
  if val.length ≠ 0 then
    Except.ok (trimSpace val)
  else
    Except.error (GoErr.authDataMissing
      ("no '" ++ name ++ "' form parameter present"))

/-- Modelled from the spec: `extractors.CompositeExtractStrategy` is not under
`src/`; per §4.3 it tries an ordered list of strategies and returns the first
successful result, failing only if all fail. -/
def compositeExtract (strategies : List (RequestContext → Except GoErr String))
    (rc : RequestContext) : Except GoErr String :=
  match strategies with
  | [] => Except.error (GoErr.authDataMissing "no auth data present")
  | s :: rest =>
    match s rc with
    | Except.ok v => Except.ok v
    | Except.error _ => compositeExtract rest rc

/-! ## Subject extraction (`authenticators.Session`) -/

/-- Lookup of a key in a decoded JSON object's field list. -/
def lookupField : List (String × Json) → String → Option Json
  | [], _ => none
  | (k, v) :: rest, key => if k = key then some v else lookupField rest key

/-- Models `gjson.GetBytes(data, path).Raw` for the plain single-key paths the
configuration uses (e.g. `"sub"`): the result is `none` exactly when gjson's
`Raw` is the empty string (path missing), and otherwise the JSON value at the
key. Only top-level object keys are modelled. -/
def jsonGet (j : Json) (path : String) : Option Json :=
  match j with
  | Json.obj fields => lookupField fields path
  | _ => none

/-- Go `json.Unmarshal` of a JSON value into a `string` variable: a JSON
string succeeds; JSON `null` is a no-op that leaves the zero value `""` and
reports no error (per `encoding/json`'s documented null handling); any other
value is a type-mismatch error. -/
def unmarshalGoString (j : Json) : Except GoErr String :=
  match j with
  | Json.str s => Except.ok s
  | Json.null => Except.ok ""
  | _ => Except.error
      (GoErr.simple "json: cannot unmarshal value into Go value of type string")

/-- Go `json.Unmarshal` of a JSON value into a `map[string]interface\x7b\x7d`:
an object succeeds, JSON `null` is a no-op leaving the nil map, anything else
is a type-mismatch error. -/
def unmarshalGoMap (j : Json) : Except GoErr (List (String × Json)) :=
  match j with
  | Json.obj fields => Except.ok fields
  | Json.null => Except.ok []
  | _ => Except.error
      (GoErr.simple "json: cannot unmarshal value into Go value of type map")

/-- `authenticators.Session`: the two configurable locator paths. -/
structure Session where
  subjectFrom : String
  attributesFrom : String
deriving DecidableEq, Repr

/-- `Session.GetSubject`: coalesces the raw gjson result with `"null"` (so a
missing path unmarshals as JSON `null`), decodes the subject id as a Go string
and the attributes as a Go map, wrapping unmarshal errors with the configured
path's name. -/
def Session.getSubject (s : Session) (rawData : Json) : Except GoErr Subject :=
  let rawSubjectId := (jsonGet rawData s.subjectFrom).getD Json.null
  match unmarshalGoString rawSubjectId with
  | Except.error e => Except.error (GoErr.wrapped
      "configured subject_from GJSON path returned an error on JSON output" e)
  | Except.ok subjectId =>
    let rawAttributes := (jsonGet rawData s.attributesFrom).getD Json.null
    match unmarshalGoMap rawAttributes with
    | Except.error e => Except.error (GoErr.wrapped
        "configured attributes_from GJSON path returned an error on JSON output" e)
    | Except.ok attributes =>
      Except.ok { id := subjectId, attributes := attributes }

/-! ## JWT authenticator (`authenticators.jwtAuthenticator`) -/

/-- `oauth2.Expectation` (the claim-assertion policy). The package is not
under `src/`; only the field the embedded code reads (`AllowedAlgorithms`,
set by `NewJwtAuthenticatorFromYAML`) is modelled, per the spec's "allowed
signature algorithms (defaulted to a fixed safe set if unspecified)". -/
structure Expectation where
  allowedAlgorithms : List String
deriving DecidableEq, Repr

/-- Modelled from the spec: `oauth2.Expectation.IsAlgorithmAllowed` is not
under `src/`; per §4.4 step 5 it checks the key's algorithm against the
configured allow-list. -/
def Expectation.isAlgorithmAllowed (e : Expectation) (alg : String) : Bool :=
  e.allowedAlgorithms.contains alg

/-- A JSON Web Key as used by the embedded code: key id and algorithm. -/
structure JWK where
  kid : String
  alg : String
deriving DecidableEq, Repr

/-- `jose.JSONWebKeySet`. -/
structure JWKS where
  keys : List JWK
deriving DecidableEq, Repr

/-- `jose.JSONWebKeySet.Key(kid)`: all keys whose key id matches. -/
def JWKS.key (ks : JWKS) (kid : String) : List JWK :=
  ks.keys.filter (fun k => k.kid = kid)

/-- One JOSE protected header of a parsed token (only the key id is read). -/
structure JoseHeader where
  kid : String
deriving DecidableEq, Repr

/-- `oauth2.Claims` (not under `src/`): its `Validate` check against the
assertion policy is the only operation used, modelled as a function field so
the theorems quantify over every behaviour. -/
structure Claims where
  validate : Expectation → Except GoErr Unit

/-- A token returned by `jwt.ParseSigned`: the protected headers, and the
behaviour of `token.Claims(&jwks, &mapClaims, &claims)` (go-jose signature
verification and claim decoding, external crypto) as a function of the key
set, yielding the decoded claims payload and the typed claims on success. -/
structure ParsedToken where
  headers : List JoseHeader
  claimsResult : JWKS → Except GoErr (Json × Claims)

/-- The external go-jose / encoding-json entry points called by
`Authenticate` and `verifyTokenAndGetClaims`, passed explicitly so theorems
quantify over the library's behaviour. -/
structure JoseEnv where
  unmarshalJWKS : String → Except GoErr JWKS
  parseSigned : String → Except GoErr ParsedToken

/-- `endpoint.Endpoint` (package not under `src/`): the configuration fields
the embedded constructor manipulates (`Method`, `Headers`; a Go nil map is
the empty association list) plus the behaviour of `SendRequest(ctx, nil)` as
observed by `Authenticate` (the response body, or a transport error). -/
structure Endpoint where
  method : String
  headers : List (String × String)
  sendResult : Except GoErr String

/-- Lookup in the endpoint's header map. -/
def lookupHeader : List (String × String) → String → Option String
  | [], _ => none
  | (k, v) :: rest, key => if k = key then some v else lookupHeader rest key

/-- The strategy type of `AuthDataGetter.GetAuthData`. -/
abbrev AuthDataGetter : Type := RequestContext → Except GoErr String

/-- `authenticators.jwtAuthenticator`: endpoint, assertion policy, subject
extractor (a `Session`) and auth-data getter. -/
structure JwtAuthenticator where
  e : Endpoint
  a : Expectation
  se : Session
  adg : AuthDataGetter

/-- The loop over `token.Headers` in `verifyTokenAndGetClaims`: `keys` takes
the value of `jwks.Key(h.KeyID)` for each header in turn, breaking at the
first non-empty result; the value after the loop is the last one assigned. -/
def lookupKeys (jwks : JWKS) : List JoseHeader → List JWK
  | [] => []
  | [h] => jwks.key h.kid
  | h :: rest =>
    let ks := jwks.key h.kid
    if ks.length ≠ 0 then ks else lookupKeys jwks rest

/-- `jwtAuthenticator.verifyTokenAndGetClaims`: structural dot-count check,
parse, unique-key lookup by key id, algorithm allow-list check, signature
verification with claim decoding, and claim-assertion validation. The final
`json.Marshal(mapClaims)` round-trip is elided: the decoded claims payload is
returned as a JSON value directly. -/
def JwtAuthenticator.verifyTokenAndGetClaims (a : JwtAuthenticator)
    (env : JoseEnv) (jwtRaw : String) (jwks : JWKS) : Except GoErr Json :=
  if countDots jwtRaw ≠ 2 then
    Except.error (GoErr.simple "unsupported jwt format")
  else
    match env.parseSigned jwtRaw with
    | Except.error e => Except.error e
    | Except.ok token =>
      match lookupKeys jwks token.headers with
      | [key] =>
        if ¬ a.a.isAlgorithmAllowed key.alg then
          Except.error (GoErr.simple (key.alg ++ " algorithm is not allowed"))
        else
          match token.claimsResult jwks with
          | Except.error e => Except.error e
          | Except.ok (mapClaims, claims) =>
            match claims.validate a.a with
            | Except.error e => Except.error (GoErr.unauthorized
                "access token does not satisfy assertion conditions" e)
            | Except.ok _ => Except.ok mapClaims
      | _ => Except.error
          (GoErr.simple "no (unique) key found for the given key id")

/-- `jwtAuthenticator.Authenticate`: requests the jwks endpoint, decodes the
key set, extracts the auth data, verifies the token, and builds the subject
into the subject context — in exactly that source order. -/
def JwtAuthenticator.authenticate (a : JwtAuthenticator) (env : JoseEnv)
    (as : RequestContext) (sc : SubjectContext) : Except GoErr SubjectContext :=
  match a.e.sendResult with
  | Except.error e => Except.error e
  | Except.ok rawBody =>
    match env.unmarshalJWKS rawBody with
    | Except.error e => Except.error e
    | Except.ok jwks =>
      match a.adg as with
      | Except.error e => Except.error (GoErr.argument "no jwt present" e)
      | Except.ok jwtRaw =>
        match a.verifyTokenAndGetClaims env jwtRaw jwks with
        | Except.error e => Except.error e
        | Except.ok rawClaims =>
          match a.se.getSubject rawClaims with
          | Except.error e => Except.error e
          | Except.ok subj => Except.ok { sc with subject := some subj }

/-- `jwtAuthenticator.WithConfig`: an empty config returns the authenticator
itself; otherwise the config is parsed (`yaml.Unmarshal` into a struct with
the single field `JwtAssertions`, modelled by the explicit `parse` parameter)
and a fresh authenticator is built with only the assertion policy replaced. -/
def JwtAuthenticator.withConfig (a : JwtAuthenticator)
    (parse : String → Except GoErr Expectation) (config : String) :
    Except GoErr JwtAuthenticator :=
  if config.length = 0 then
    Except.ok a
  else
    match parse config with
    | Except.error e => Except.error e
    | Except.ok conf =>
      Except.ok { e := a.e, a := conf, se := a.se, adg := a.adg }

/-- The fixed default algorithm allow-list installed by
`NewJwtAuthenticatorFromYAML` when the configuration names none. -/
def defaultAllowedAlgorithms : List String :=
  ["ES256", "ES384", "ES512", "PS256", "PS384", "PS512"]

/-- The `_config` struct of `NewJwtAuthenticatorFromYAML` after
`yaml.UnmarshalStrict`: endpoint, optional auth-data source strategy
(`conf.AuthDataSource.es`, nil when unconfigured), assertion policy, session. -/
structure JwtConf where
  endpoint : Endpoint
  authDataSource : Option AuthDataGetter
  jwtAssertions : Expectation
  session : Session

/-- The default composite extraction strategy installed when no auth-data
source is configured: Authorization header with Bearer prefix, then the
`access_token` form parameter, then the `access_token` query parameter. -/
def defaultCompositeStrategy : AuthDataGetter :=
  compositeExtract
    [headerValueExtract "Authorization" "Bearer",
     formParameterExtract "access_token",
     fun rc => QueryParameterExtractStrategy.getAuthData
       { name := "access_token", pfx := "" } rc]

/-- `NewJwtAuthenticatorFromYAML` after the `yaml.UnmarshalStrict` step
(modelled by quantifying over the decoded `JwtConf`): validates the assertion
configuration (`vA` models the external `oauth2.Expectation.Validate`),
defaults the endpoint's Accept-Type header and method, defaults the algorithm
allow-list when empty, validates the endpoint (`vE` models the external
`endpoint.Endpoint.Validate`), defaults the session's subject path, and
installs the default composite extraction strategy when none is configured. -/
def newJwtAuthenticatorFromConf (vA : Expectation → Except GoErr Unit)
    (vE : Endpoint → Except GoErr Unit) (conf : JwtConf) :
    Except GoErr JwtAuthenticator :=
  match vA conf.jwtAssertions with
  | Except.error e =>
    Except.error (GoErr.argument "failed to validate assertions configuration" e)
  | Except.ok _ =>
    let ep0 := conf.endpoint
    let ep1 :=
      if (lookupHeader ep0.headers "Accept-Type").isNone then
        { ep0 with headers := ep0.headers ++ [("Accept-Type", "application/json")] }
      else ep0
    let ep2 := if ep1.method.length = 0 then { ep1 with method := "GET" } else ep1
    let asserts :=
      if conf.jwtAssertions.allowedAlgorithms.length = 0 then
        { conf.jwtAssertions with allowedAlgorithms := defaultAllowedAlgorithms }
      else conf.jwtAssertions
    match vE ep2 with
    | Except.error e =>
      Except.error (GoErr.argument "failed to validate endpoint configuration" e)
    | Except.ok _ =>
      let sess :=
        if conf.session.subjectFrom.length = 0 then
          { conf.session with subjectFrom := "sub" }
        else conf.session
      let adg :=
        match conf.authDataSource with
        | none => defaultCompositeStrategy
        | some es => es
      Except.ok { e := ep2, a := asserts, se := sess, adg := adg }

/-! ## Rules and the rule repository (package `rules`) -/

/-- `handler.Authenticator.Authenticate(ctx, reqCtx, sc)` as seen by the rule
pipeline: the stage either fails or yields the updated subject context (Go
mutates `sc` through a pointer and returns an error). `Authorize` has the same
shape. -/
abbrev ReqStage : Type := RequestContext → SubjectContext → Except GoErr SubjectContext

/-- `handler.Hydrator.Hydrate(ctx, sc)` / `handler.Mutator.Mutate(ctx, sc)`:
stages that read only the subject context. -/
abbrev CtxStage : Type := SubjectContext → Except GoErr SubjectContext

/-- `handler.ErrorHandler.HandleError(ctx, err)`: maps the stage error to the
final error (`none` models a nil result, i.e. suppression). -/
abbrev ErrStage : Type := GoErr → Option GoErr

/-- `rules.rule`: matching metadata plus the five pipeline stage references. -/
structure Rule where
  id : String
  url : String
  methods : List String
  srcID : String
  an : ReqStage
  az : ReqStage
  h : CtxStage
  m : CtxStage
  eh : ErrStage

/-- `rule.Execute`: runs Authenticate, Authorize, Hydrate, Mutate in order;
the first stage error is handed to the error handler and `(nil, its result)`
is returned; if all stages succeed the subject context is returned with a nil
error. -/
def Rule.execute (r : Rule) (reqCtx : RequestContext) :
    Option SubjectContext × Option GoErr :=
  let subjectCtx : SubjectContext := {}
  match r.an reqCtx subjectCtx with
  | Except.error e => (none, r.eh e)
  | Except.ok sc1 =>
    match r.az reqCtx sc1 with
    | Except.error e => (none, r.eh e)
    | Except.ok sc2 =>
      match r.h sc2 with
      | Except.error e => (none, r.eh e)
      | Except.ok sc3 =>
        match r.m sc3 with
        | Except.error e => (none, r.eh e)
        | Except.ok sc4 => (some sc4, none)

/-- Observable pipeline events: invocation of each stage, and each invocation
of the error handler together with the error it receives. -/
inductive StageEv where
  | authenticate : StageEv
  | authorize : StageEv
  | hydrate : StageEv
  | mutate : StageEv
  | handleError (e : GoErr) : StageEv
deriving DecidableEq, Repr

/-- `rule.Execute` instrumented with the trace of stage and error-handler
invocations, following the source's control flow line by line. -/
def Rule.executeTr (r : Rule) (reqCtx : RequestContext) :
    (Option SubjectContext × Option GoErr) × List StageEv :=
  let subjectCtx : SubjectContext := {}
  match r.an reqCtx subjectCtx with
  | Except.error e =>
    ((none, r.eh e), [StageEv.authenticate, StageEv.handleError e])
  | Except.ok sc1 =>
    match r.az reqCtx sc1 with
    | Except.error e =>
      ((none, r.eh e),
       [StageEv.authenticate, StageEv.authorize, StageEv.handleError e])
    | Except.ok sc2 =>
      match r.h sc2 with
      | Except.error e =>
        ((none, r.eh e),
         [StageEv.authenticate, StageEv.authorize, StageEv.hydrate,
          StageEv.handleError e])
      | Except.ok sc3 =>
        match r.m sc3 with
        | Except.error e =>
          ((none, r.eh e),
           [StageEv.authenticate, StageEv.authorize, StageEv.hydrate,
            StageEv.mutate, StageEv.handleError e])
        | Except.ok sc4 =>
          ((some sc4, none),
           [StageEv.authenticate, StageEv.authorize, StageEv.hydrate,
            StageEv.mutate])

/-- `rule.MatchesURL`: the source returns `true` unconditionally (the URL
matcher is stubbed). Request URLs are opaque here. -/
def Rule.matchesURL (_ : Rule) (_ : String) : Bool :=
  true

/-- `rule.MatchesMethod`: `slices.Contains(r.methods, method)`. -/
def Rule.matchesMethod (r : Rule) (method : String) : Bool :=
  r.methods.contains method

/-- Is the JSON value a string or `null` (the two cases Go's unmarshal into a
string accepts)? -/
def isStrOrNull : Json → Bool
  | Json.str _ => true
  | Json.null => true
  | _ => false

/-- Is the result the `no jwt present` argument error the authenticator
raises when auth-data extraction fails? -/
def isNoJwtPresent : Except GoErr SubjectContext → Bool
  | Except.error (GoErr.argument msg _) => msg == "no jwt present"
  | _ => false

/-- `config.RuleConfig` (the config package is not under `src/`): id, url
pattern, methods, and the five per-stage configuration fragments, opaque to
the repository and passed through to the handler factory. -/
structure RuleConfig where
  id : String
  url : String
  methods : List String
  authenticators : String
  authorizer : String
  hydrators : String
  mutators : String
  errorHandlers : String
deriving DecidableEq, Repr

/-- `pipeline.HandlerFactory`: the external collaborator that builds the five
stage instances from their configuration fragments, each fallibly. -/
structure HandlerFactory where
  createAuthenticator : String → Except GoErr ReqStage
  createAuthorizer : String → Except GoErr ReqStage
  createHydrator : String → Except GoErr CtxStage
  createMutator : String → Except GoErr CtxStage
  createErrorHandler : String → Except GoErr ErrStage

/-- The repository's fixed collaborators: the handler factory and the
external `parseRuleSetFromYaml` payload parser (`yaml.UnmarshalStrict` into a
list of rule configurations). -/
structure RepoEnv where
  hf : HandlerFactory
  parse : String → Except GoErr (List RuleConfig)

/-- `repository.newRule`: builds the five stages through the factory, aborting
on the first construction error, then assembles the rule. -/
def newRule (env : RepoEnv) (srcID : String) (ruleConfig : RuleConfig) :
    Except GoErr Rule :=
  match env.hf.createAuthenticator ruleConfig.authenticators with
  | Except.error e => Except.error e
  | Except.ok authenticator =>
    match env.hf.createAuthorizer ruleConfig.authorizer with
    | Except.error e => Except.error e
    | Except.ok authorizer =>
      match env.hf.createHydrator ruleConfig.hydrators with
      | Except.error e => Except.error e
      | Except.ok hydrator =>
        match env.hf.createMutator ruleConfig.mutators with
        | Except.error e => Except.error e
        | Except.ok mutator =>
          match env.hf.createErrorHandler ruleConfig.errorHandlers with
          | Except.error e => Except.error e
          | Except.ok errorHandler =>
            Except.ok { id := ruleConfig.id, url := ruleConfig.url,
                        methods := ruleConfig.methods, srcID := srcID,
                        an := authenticator, az := authorizer,
                        h := hydrator, m := mutator, eh := errorHandler }

/-- The rule-construction loop of `repository.loadRules`: one rule per
configuration, in order, aborting the whole batch on the first error. -/
def buildRules (env : RepoEnv) (srcID : String) :
    List RuleConfig → Except GoErr (List Rule)
  | [] => Except.ok []
  | rc :: rest =>
    match newRule env srcID rc with
    | Except.error e => Except.error e
    | Except.ok r =>
      match buildRules env srcID rest with
      | Except.error e => Except.error e
      | Except.ok rs => Except.ok (r :: rs)

/-- `repository.loadRules`: parse the rule-set definition, then construct all
rules of the batch. -/
def loadRules (env : RepoEnv) (srcID : String) (definition : String) :
    Except GoErr (List Rule) :=
  match env.parse definition with
  | Except.error e => Except.error e
  | Except.ok rcs => buildRules env srcID rcs

/-- The repository's rule collection (the `rules` slice; the lock only
serialises access and is invisible to the sequential model). -/
abbrev RepoState : Type := List Rule

/-- `repository.addRule`: appends the rule to the collection. -/
def addRule (st : RepoState) (r : Rule) : RepoState :=
  st ++ [r]

/-- `repository.removeRules`: the source only logs — the body is the comment
`TODO: implement remove rule` — so the collection is returned unchanged. -/
def removeRules (st : RepoState) (_ : String) : RepoState :=
  st

/-- `repository.onRuleSetCreated`: loads the batch; on error only a log is
written and the nil slice is iterated (no rule added); on success every rule
of the batch is added in order. -/
def onRuleSetCreated (env : RepoEnv) (st : RepoState) (srcID : String)
    (definition : String) : RepoState :=
  match loadRules env srcID definition with
  | Except.error _ => st
  | Except.ok rules => rules.foldl addRule st

/-- `repository.onRuleSetDeleted`: delegates to `removeRules`. -/
def onRuleSetDeleted (st : RepoState) (src : String) : RepoState :=
  removeRules st src

/-- `provider.ChangeType`: the two change kinds the watcher handles. -/
inductive ChangeType where
  | create : ChangeType
  | remove : ChangeType
deriving DecidableEq, Repr

/-- `provider.RuleSetChangedEvent`: source id, change type, raw definition. -/
structure RuleSetChangedEvent where
  src : String
  changeType : ChangeType
  definition : String

/-- One iteration of `repository.watchRuleSetChanges` on a received event:
Create events go to `onRuleSetCreated`, Remove events to `onRuleSetDeleted`. -/
def processEvent (env : RepoEnv) (st : RepoState) (evt : RuleSetChangedEvent) :
    RepoState :=
  match evt.changeType with
  | ChangeType.create => onRuleSetCreated env st evt.src evt.definition
  | ChangeType.remove => onRuleSetDeleted st evt.src

/-- The watcher applied to a sequence of events in arrival order. -/
def processEvents (env : RepoEnv) (st : RepoState)
    (evts : List RuleSetChangedEvent) : RepoState :=
  evts.foldl (processEvent env) st

/-- `repository.FindRule`: the first rule in collection order whose URL
matcher accepts the request URL, or `ErrNoRuleFound`. -/
def findRule (st : RepoState) (requestURL : String) : Except GoErr Rule :=
  match st.find? (fun r => r.matchesURL requestURL) with
  | some r => Except.ok r
  | none => Except.error (GoErr.simple "no rule found")

/-! ## Concrete fixtures used by witnesses and counterexamples -/

/-- A request with no headers, query or form parameters. -/
def rcEmpty : RequestContext :=
  { header := fun _ => "", query := fun _ => "", form := fun _ => "" }

/-- A request carrying only the `access_token` query parameter. -/
def rcWithToken : RequestContext :=
  { header := fun _ => "",
    query := fun n => if n = "access_token" then "abc" else "",
    form := fun _ => "" }

/-- The query extraction strategy for `access_token` with no prefix. -/
def esAccessToken : QueryParameterExtractStrategy :=
  { name := "access_token", pfx := "" }

/-- An always-succeeding request stage. -/
def stageAnOk : ReqStage := fun _ sc => Except.ok sc

/-- An always-succeeding context stage. -/
def stageCtxOk : CtxStage := fun sc => Except.ok sc

/-- An error handler returning the error unchanged. -/
def stageEhId : ErrStage := fun e => some e

/-- A rule whose configured method list is empty. -/
def ruleNoMethods : Rule :=
  { id := "r1", url := "u", methods := [], srcID := "s",
    an := stageAnOk, az := stageAnOk, h := stageCtxOk, m := stageCtxOk,
    eh := stageEhId }

/-- The session locators used in concrete scenarios. -/
def sessDefault : Session := { subjectFrom := "sub", attributesFrom := "attrs" }

/-- A payload whose subject path resolves to a JSON number. -/
def payloadNumSub : Json := Json.obj [("sub", Json.num 42)]

/-- An endpoint whose key-set request fails with a transport error. -/
def epFailing : Endpoint :=
  { method := "GET", headers := [],
    sendResult := Except.error (GoErr.simple "connection refused") }

/-- An endpoint whose key-set request returns an empty body. -/
def epOkEmpty : Endpoint :=
  { method := "GET", headers := [], sendResult := Except.ok "{}" }

/-- A base assertion policy allowing only ES256. -/
def expES256 : Expectation := { allowedAlgorithms := ["ES256"] }

/-- The auth-data getter reading the `access_token` query parameter. -/
def adgQuery : AuthDataGetter :=
  fun rc => esAccessToken.getAuthData rc

/-- A JWT authenticator whose key-set endpoint fails. -/
def authFailingEp : JwtAuthenticator :=
  { e := epFailing, a := expES256, se := sessDefault, adg := adgQuery }

/-- A JWT authenticator whose key-set endpoint returns an empty key set. -/
def authOkEp : JwtAuthenticator :=
  { e := epOkEmpty, a := expES256, se := sessDefault, adg := adgQuery }

/-- A jose environment that decodes any body as the empty key set and fails
to parse any token. -/
def joseEnvTrivial : JoseEnv :=
  { unmarshalJWKS := fun _ => Except.ok { keys := [] },
    parseSigned := fun _ => Except.error (GoErr.simple "parse failure") }

/-! ## Helper lemmas -/

/-- A string has length zero exactly when it is empty. -/
theorem string_length_eq_zero_iff (s : String) : s.length = 0 ↔ s = "" := by
  constructor
  · intro h
    cases s with
    | mk data =>
      cases data with
      | nil => rfl
      | cons c cs => simp [String.length] at h
  · intro h
    subst h
    rfl

/-! ## Claims -/

/-- C10: `QueryParameterExtractStrategy.GetAuthData` treats a query parameter
that is present but has an empty value exactly like an absent parameter (the
request context yields `""` in both cases): it returns the auth-data-missing
error; it succeeds only when the parameter's value is a non-empty string, in
which case it returns that value with the configured prefix stripped and the
surrounding whitespace trimmed. -/
theorem C10_query_extract_empty_like_absent
    (es : QueryParameterExtractStrategy) (rc : RequestContext) :
    (rc.query es.name = "" →
      es.getAuthData rc = Except.error (GoErr.authDataMissing
        ("no '" ++ es.name ++ "' query parameter present")))
    ∧ (rc.query es.name ≠ "" →
      es.getAuthData rc =
        Except.ok (trimSpace (dropPfx (rc.query es.name) es.pfx))) := by
  constructor
  · intro h
    simp [QueryParameterExtractStrategy.getAuthData, h]
  · intro h
    have hlen : (rc.query es.name).length ≠ 0 := by
      intro hc
      exact h ((string_length_eq_zero_iff _).mp hc)
    simp [QueryParameterExtractStrategy.getAuthData, hlen]

/-- C10 witness: on a request without the parameter the strategy fails with
the auth-data-missing error; on a request carrying `access_token=abc` it
succeeds with `abc`. -/
theorem C10_query_extract_witness :
    esAccessToken.getAuthData rcEmpty = Except.error (GoErr.authDataMissing
      "no 'access_token' query parameter present")
    ∧ esAccessToken.getAuthData rcWithToken = Except.ok "abc" := by
  constructor
  · exact (C10_query_extract_empty_like_absent esAccessToken rcEmpty).1 rfl
  · have h := (C10_query_extract_empty_like_absent esAccessToken rcWithToken).2
      (by decide)
    exact h.trans (congrArg Except.ok (by decide))

/-- C6 counterexample: the claim states that a rule with an empty configured
method list matches every HTTP method, but `MatchesMethod` is a plain
membership test: on `ruleNoMethods` (whose method list is empty) it returns
`false` for `"GET"`. -/
theorem C6_counterexample_empty_methods :
    ruleNoMethods.methods = [] ∧ ruleNoMethods.matchesMethod "GET" = false :=
  ⟨rfl, rfl⟩

/-- C6 (amended): `MatchesMethod` returns `true` exactly when the method is a
member of the rule's configured method list; in particular a rule with an
empty method list matches no method at all. -/
theorem C6_matchesMethod_is_membership (r : Rule) (method : String) :
    (r.matchesMethod method = true ↔ method ∈ r.methods)
    ∧ (r.methods = [] → r.matchesMethod method = false) := by
  constructor
  · simp [Rule.matchesMethod, List.elem_iff]
  · intro h
    simp [Rule.matchesMethod, h]

/-- C6 witness: a rule configured with methods `["GET", "POST"]` matches
`"POST"` and does not match `"DELETE"`; a rule with the empty list does not
match `"GET"`. -/
theorem C6_matchesMethod_witness :
    ({ ruleNoMethods with methods := ["GET", "POST"] } : Rule).matchesMethod "POST" = true
    ∧ ({ ruleNoMethods with methods := ["GET", "POST"] } : Rule).matchesMethod "DELETE" = false
    ∧ ruleNoMethods.matchesMethod "GET" = false := by
  refine ⟨?_, ?_, ?_⟩
  · exact (C6_matchesMethod_is_membership
      { ruleNoMethods with methods := ["GET", "POST"] } "POST").1.mpr (by decide)
  · have h := (C6_matchesMethod_is_membership
      { ruleNoMethods with methods := ["GET", "POST"] } "DELETE").1
    by_contra hc
    simp only [Bool.not_eq_false] at hc
    exact (by decide : ¬ ("DELETE" ∈ ["GET", "POST"])) (h.mp hc)
  · exact (C6_matchesMethod_is_membership ruleNoMethods "GET").2 rfl

/-- C9: `WithConfig` with an empty configuration returns the authenticator
itself unchanged with a nil error, for every base authenticator and every
behaviour of the yaml parser. -/
theorem C9_withConfig_empty_is_identity (a : JwtAuthenticator)
    (parse : String → Except GoErr Expectation) :
    a.withConfig parse "" = Except.ok a := by
  simp [JwtAuthenticator.withConfig]

/-- C8: for every non-empty override configuration that parses, `WithConfig`
returns a fresh authenticator in which only the claim-assertion policy is
replaced by the parsed override while the endpoint, the subject-extraction
locator and the auth-data extraction strategy are exactly those of the base;
the base authenticator itself is a value never written to (the embedding is
pure), so its fields are unchanged by the call. -/
theorem C8_withConfig_replaces_only_assertions (a : JwtAuthenticator)
    (parse : String → Except GoErr Expectation) (config : String)
    (conf : Expectation) (hne : config ≠ "")
    (hp : parse config = Except.ok conf) :
    a.withConfig parse config =
      Except.ok { e := a.e, a := conf, se := a.se, adg := a.adg } := by
  have hlen : config.length ≠ 0 := by
    intro hc
    exact hne ((string_length_eq_zero_iff _).mp hc)
  simp [JwtAuthenticator.withConfig, hlen, hp]

/-- C8 witness: overriding `authFailingEp` with a config that parses to the
RS256-only policy yields an authenticator sharing the endpoint, session and
extraction strategy of the base, with only the policy replaced. -/
theorem C8_withConfig_witness :
    authFailingEp.withConfig
      (fun _ => Except.ok { allowedAlgorithms := ["RS256"] }) "jwt_assertions" =
    Except.ok { e := authFailingEp.e, a := { allowedAlgorithms := ["RS256"] },
                se := authFailingEp.se, adg := authFailingEp.adg } :=
  C8_withConfig_replaces_only_assertions authFailingEp
    (fun _ => Except.ok { allowedAlgorithms := ["RS256"] }) "jwt_assertions"
    { allowedAlgorithms := ["RS256"] } (by decide) rfl

/-- C5 counterexample: the claim states that a payload in which the
subject-identifier path is missing yields a non-nil decoding error, but on
the empty JSON object (path `"sub"` missing) `GetSubject` succeeds and the
subject id has silently defaulted to the empty string. -/
theorem C5_counterexample_missing_path :
    sessDefault.getSubject (Json.obj []) =
      Except.ok { id := "", attributes := [] } :=
  rfl

/-- C5 (amended): if the subject-identifier path resolves to a value that is
neither a string nor JSON `null`, `GetSubject` returns a non-nil decoding
error; but when the path is missing or resolves to JSON `null`, the id is
silently defaulted to the empty string and `GetSubject` succeeds (provided
the attributes decode). -/
theorem C5_subject_decoding (s : Session) (data : Json) :
    (∀ j, jsonGet data s.subjectFrom = some j → isStrOrNull j = false →
      ∃ e, s.getSubject data = Except.error e)
    ∧ ((jsonGet data s.subjectFrom).getD Json.null = Json.null →
      ∀ attrs,
        unmarshalGoMap ((jsonGet data s.attributesFrom).getD Json.null) =
          Except.ok attrs →
        s.getSubject data = Except.ok { id := "", attributes := attrs }) := by
  constructor
  · intro j hj hns
    cases j <;> simp_all [Session.getSubject, unmarshalGoString, isStrOrNull]
  · intro hnull attrs hattrs
    simp [Session.getSubject, hnull, hattrs, unmarshalGoString]

/-- C5 witness: a payload whose `sub` field is the number `42` produces a
decoding error; the empty object (missing path) produces the silently
defaulted empty id. -/
theorem C5_subject_decoding_witness :
    (∃ e, sessDefault.getSubject payloadNumSub = Except.error e)
    ∧ sessDefault.getSubject (Json.obj []) =
        Except.ok { id := "", attributes := [] } := by
  constructor
  · exact (C5_subject_decoding sessDefault payloadNumSub).1 (Json.num 42) rfl rfl
  · exact (C5_subject_decoding sessDefault (Json.obj [])).2 rfl [] rfl

/-- A rule whose authentication stage fails and whose error handler wraps the
error it receives. -/
def ruleFailAn : Rule :=
  { id := "r2", url := "u", methods := ["GET"], srcID := "s",
    an := fun _ _ => Except.error (GoErr.simple "authentication failed"),
    az := stageAnOk, h := stageCtxOk, m := stageCtxOk,
    eh := fun e => some (GoErr.wrapped "handled" e) }

/-- C2: `Execute` runs the stages in the fixed order Authenticate, Authorize,
Hydrate, Mutate; when a stage fails no later stage runs, the error handler is
invoked exactly once with that stage's error and `Execute` returns
`(nil, errorHandlerResult)`; when all four stages succeed it returns the
subject context with a nil error. Stated over the instrumented `executeTr`,
whose result component coincides with `execute` and whose trace lists every
stage and error-handler invocation in order. -/
theorem C2_execute_pipeline (r : Rule) (rc : RequestContext) :
    (r.executeTr rc).1 = r.execute rc
    ∧ (∀ e, r.an rc {} = Except.error e →
        r.executeTr rc = ((none, r.eh e),
          [StageEv.authenticate, StageEv.handleError e]))
    ∧ (∀ sc1 e, r.an rc {} = Except.ok sc1 → r.az rc sc1 = Except.error e →
        r.executeTr rc = ((none, r.eh e),
          [StageEv.authenticate, StageEv.authorize, StageEv.handleError e]))
    ∧ (∀ sc1 sc2 e, r.an rc {} = Except.ok sc1 → r.az rc sc1 = Except.ok sc2 →
        r.h sc2 = Except.error e →
        r.executeTr rc = ((none, r.eh e),
          [StageEv.authenticate, StageEv.authorize, StageEv.hydrate,
           StageEv.handleError e]))
    ∧ (∀ sc1 sc2 sc3 e, r.an rc {} = Except.ok sc1 →
        r.az rc sc1 = Except.ok sc2 → r.h sc2 = Except.ok sc3 →
        r.m sc3 = Except.error e →
        r.executeTr rc = ((none, r.eh e),
          [StageEv.authenticate, StageEv.authorize, StageEv.hydrate,
           StageEv.mutate, StageEv.handleError e]))
    ∧ (∀ sc1 sc2 sc3 sc4, r.an rc {} = Except.ok sc1 →
        r.az rc sc1 = Except.ok sc2 → r.h sc2 = Except.ok sc3 →
        r.m sc3 = Except.ok sc4 →
        r.executeTr rc = ((some sc4, none),
          [StageEv.authenticate, StageEv.authorize, StageEv.hydrate,
           StageEv.mutate])) := by
  refine ⟨?_, ?_, ?_, ?_, ?_, ?_⟩
  · cases han : r.an rc {} with
    | error e => simp [Rule.execute, Rule.executeTr, han]
    | ok sc1 =>
      cases haz : r.az rc sc1 with
      | error e => simp [Rule.execute, Rule.executeTr, han, haz]
      | ok sc2 =>
        cases hh : r.h sc2 with
        | error e => simp [Rule.execute, Rule.executeTr, han, haz, hh]
        | ok sc3 =>
          cases hm : r.m sc3 with
          | error e => simp [Rule.execute, Rule.executeTr, han, haz, hh, hm]
          | ok sc4 => simp [Rule.execute, Rule.executeTr, han, haz, hh, hm]
  · intro e han
    simp [Rule.executeTr, han]
  · intro sc1 e han haz
    simp [Rule.executeTr, han, haz]
  · intro sc1 sc2 e han haz hh
    simp [Rule.executeTr, han, haz, hh]
  · intro sc1 sc2 sc3 e han haz hh hm
    simp [Rule.executeTr, han, haz, hh, hm]
  · intro sc1 sc2 sc3 sc4 han haz hh hm
    simp [Rule.executeTr, han, haz, hh, hm]

/-- C2 witness: on a rule whose authentication fails, the pipeline runs only
Authenticate, invokes the error handler once with the authentication error,
and returns `(nil, handled error)`. -/
theorem C2_execute_pipeline_witness :
    ruleFailAn.executeTr rcEmpty =
      ((none, some (GoErr.wrapped "handled" (GoErr.simple "authentication failed"))),
       [StageEv.authenticate,
        StageEv.handleError (GoErr.simple "authentication failed")]) :=
  (C2_execute_pipeline ruleFailAn rcEmpty).2.1 (GoErr.simple "authentication failed") rfl

/-- If any configuration of the batch fails rule construction, the whole
batch construction fails. -/
theorem buildRules_error_of_mem (env : RepoEnv) (srcID : String)
    (rcs : List RuleConfig) (rc : RuleConfig) (hmem : rc ∈ rcs) (e : GoErr)
    (hfail : newRule env srcID rc = Except.error e) :
    ∃ e2, buildRules env srcID rcs = Except.error e2 := by
  induction rcs with
  | nil => cases hmem
  | cons head tail ih =>
    rcases List.mem_cons.mp hmem with h1 | h2
    · subst h1
      exact ⟨e, by simp [buildRules, hfail]⟩
    · cases hnr : newRule env srcID head with
      | error e3 => exact ⟨e3, by simp [buildRules, hnr]⟩
      | ok r =>
        obtain ⟨e2, he2⟩ := ih h2
        exact ⟨e2, by simp [buildRules, hnr, he2]⟩

/-- C3: a Create event whose definition fails to parse, or in which any
single rule configuration fails construction, leaves the repository's rule
collection completely unchanged — no rule of the batch is added. -/
theorem C3_failed_batch_adds_nothing (env : RepoEnv) (st : RepoState)
    (srcID definition : String)
    (h : (∃ e, env.parse definition = Except.error e)
       ∨ (∃ rcs rc, env.parse definition = Except.ok rcs ∧ rc ∈ rcs
          ∧ ∃ e, newRule env srcID rc = Except.error e)) :
    onRuleSetCreated env st srcID definition = st := by
  rcases h with ⟨e, he⟩ | ⟨rcs, rc, hp, hmem, e, hf⟩
  · simp [onRuleSetCreated, loadRules, he]
  · obtain ⟨e2, hb⟩ := buildRules_error_of_mem env srcID rcs rc hmem e hf
    simp [onRuleSetCreated, loadRules, hp, hb]

/-- A valid rule configuration: every stage fragment is accepted by the
concrete factory below. -/
def rcGood : RuleConfig :=
  { id := "1", url := "u", methods := [], authenticators := "ok",
    authorizer := "ok", hydrators := "ok", mutators := "ok",
    errorHandlers := "ok" }

/-- A rule configuration whose authenticator fragment the factory rejects. -/
def rcBad : RuleConfig :=
  { rcGood with id := "2", authenticators := "bad" }

/-- A concrete handler factory that rejects the fragment `"bad"` and accepts
everything else. -/
def hfConcrete : HandlerFactory :=
  { createAuthenticator := fun c =>
      if c = "bad" then Except.error (GoErr.simple "construction failed")
      else Except.ok stageAnOk,
    createAuthorizer := fun _ => Except.ok stageAnOk,
    createHydrator := fun _ => Except.ok stageCtxOk,
    createMutator := fun _ => Except.ok stageCtxOk,
    createErrorHandler := fun _ => Except.ok stageEhId }

/-- An environment whose parser yields a three-config batch with the second
config failing construction, except for the definition `"unparsable"` which
fails to parse. -/
def envBadBatch : RepoEnv :=
  { hf := hfConcrete,
    parse := fun d =>
      if d = "unparsable" then Except.error (GoErr.simple "yaml error")
      else Except.ok [rcGood, rcBad, { rcGood with id := "3" }] }

/-- C3 witness: with one rule already loaded, a Create event for a
three-config batch whose second config fails construction adds nothing, and a
Create event whose definition fails to parse adds nothing. -/
theorem C3_failed_batch_witness :
    onRuleSetCreated envBadBatch [ruleNoMethods] "srcA" "batch" = [ruleNoMethods]
    ∧ onRuleSetCreated envBadBatch [ruleNoMethods] "srcA" "unparsable" = [ruleNoMethods] := by
  constructor
  · exact C3_failed_batch_adds_nothing envBadBatch [ruleNoMethods] "srcA" "batch"
      (Or.inr ⟨[rcGood, rcBad, { rcGood with id := "3" }], rcBad, rfl,
        by decide, GoErr.simple "construction failed", rfl⟩)
  · exact C3_failed_batch_adds_nothing envBadBatch [ruleNoMethods] "srcA" "unparsable"
      (Or.inl ⟨GoErr.simple "yaml error", rfl⟩)

/-- An environment whose parser yields a single valid rule configuration for
any definition. -/
def envOneRule : RepoEnv :=
  { hf := hfConcrete, parse := fun _ => Except.ok [rcGood] }

/-- The Create event for source `"a"`. -/
def evCreateA : RuleSetChangedEvent :=
  { src := "a", changeType := ChangeType.create, definition := "defA" }

/-- The Remove event for source `"a"`. -/
def evRemoveA : RuleSetChangedEvent :=
  { src := "a", changeType := ChangeType.remove, definition := "" }

/-- C1: the claim requires that after a Remove event for source `s` every
rule whose `sourceID` equals `s` is evicted and `FindRule` no longer returns
any rule loaded from `s`. The code's `removeRules` body is only the comment
`TODO: implement remove rule`, so the Remove event leaves the collection
untouched: after Create for source `"a"` followed by Remove for `"a"`, the
state is unchanged by the Remove and `FindRule` still returns the rule loaded
from source `"a"`. -/
theorem C1_remove_event_is_noop :
    processEvents envOneRule [] [evCreateA, evRemoveA] =
      processEvents envOneRule [] [evCreateA]
    ∧ (findRule (processEvents envOneRule [] [evCreateA, evRemoveA])
        "/any").map Rule.srcID = Except.ok "a" :=
  ⟨rfl, rfl⟩

/-- An environment validation function accepting everything (used to
instantiate the external `Validate` collaborators at concrete inputs). -/
def acceptAll {α : Type} : α → Except GoErr Unit := fun _ => Except.ok ()

/-- C4 counterexample: the claim states that when no credential is found,
`Authenticate` fails with the auth-data-missing error regardless of whether
the key-set endpoint would succeed or fail — but on an authenticator whose
endpoint fails with a transport error and a request carrying no credential,
`Authenticate` returns the transport error, not the auth-data-missing
(`no jwt present`) error: the key set is fetched before any extraction. -/
theorem C4_counterexample_fetch_first :
    authFailingEp.authenticate joseEnvTrivial rcEmpty {} =
      Except.error (GoErr.simple "connection refused")
    ∧ isNoJwtPresent (authFailingEp.authenticate joseEnvTrivial rcEmpty {}) = false :=
  ⟨rfl, rfl⟩

/-- C4 (amended): `Authenticate` fetches the remote key set first and runs
the extraction strategy only afterwards; a failing key-set request is
returned as-is regardless of credential presence, and the auth-data-missing
(`no jwt present`) error is produced exactly when the fetch and its decoding
succeed and no credential is found. -/
theorem C4_fetch_before_extract (env : JoseEnv) (a : JwtAuthenticator)
    (as : RequestContext) (sc : SubjectContext) :
    (∀ e, a.e.sendResult = Except.error e →
      a.authenticate env as sc = Except.error e)
    ∧ (∀ body jwks e, a.e.sendResult = Except.ok body →
      env.unmarshalJWKS body = Except.ok jwks →
      a.adg as = Except.error e →
      a.authenticate env as sc =
        Except.error (GoErr.argument "no jwt present" e)) := by
  constructor
  · intro e he
    simp [JwtAuthenticator.authenticate, he]
  · intro body jwks e hb hj ha
    simp [JwtAuthenticator.authenticate, hb, hj, ha]

/-- C4 witness: on the failing endpoint the transport error is returned even
though the request carries no credential; on the successful endpoint with no
credential the `no jwt present` argument error wrapping the extractor's
auth-data-missing error is returned. -/
theorem C4_fetch_before_extract_witness :
    authFailingEp.authenticate joseEnvTrivial rcEmpty {} =
      Except.error (GoErr.simple "connection refused")
    ∧ authOkEp.authenticate joseEnvTrivial rcEmpty {} =
      Except.error (GoErr.argument "no jwt present"
        (GoErr.authDataMissing "no 'access_token' query parameter present")) := by
  constructor
  · exact (C4_fetch_before_extract joseEnvTrivial authFailingEp rcEmpty {}).1
      (GoErr.simple "connection refused") rfl
  · exact (C4_fetch_before_extract joseEnvTrivial authOkEp rcEmpty {}).2
      "{}" { keys := [] }
      (GoErr.authDataMissing "no 'access_token' query parameter present")
      rfl rfl rfl

/-- Does the algorithm name start with `HS` (a symmetric HMAC algorithm)? -/
def isHSAlg (s : String) : Bool :=
  s.toList.take 2 = ['H', 'S']

/-- A configuration naming no allowed algorithms, to exercise the default. -/
def confNoAlgs : JwtConf :=
  { endpoint := epOkEmpty, authDataSource := some adgQuery,
    jwtAssertions := { allowedAlgorithms := [] }, session := sessDefault }

/-- The authenticator `NewJwtAuthenticatorFromYAML` builds from `confNoAlgs`:
default Accept-Type header, default algorithm allow-list. -/
def authDefaulted : JwtAuthenticator :=
  { e := { method := "GET", headers := [("Accept-Type", "application/json")],
           sendResult := Except.ok "{}" },
    a := { allowedAlgorithms := defaultAllowedAlgorithms },
    se := sessDefault, adg := adgQuery }

/-- A key set holding one HS256 key under kid `k1`. -/
def jwksHS : JWKS := { keys := [{ kid := "k1", alg := "HS256" }] }

/-- A parsed token referring to kid `k1` (its claims behaviour is never
reached in the algorithm-check scenario). -/
def tokenK1 : ParsedToken :=
  { headers := [{ kid := "k1" }],
    claimsResult := fun _ => Except.error (GoErr.simple "unreached") }

/-- A jose environment parsing every token as `tokenK1`. -/
def joseEnvK1 : JoseEnv :=
  { unmarshalJWKS := fun _ => Except.ok jwksHS,
    parseSigned := fun _ => Except.ok tokenK1 }

/-- C7: when the configuration specifies no allowed signature algorithms the
constructor installs the fixed default allow-list, which is non-empty,
contains no symmetric HS* algorithm and not `none`; and
`verifyTokenAndGetClaims` fails with the algorithm-not-allowed error whenever
the uniquely located key's algorithm is outside the allow-list. -/
theorem C7_default_algorithms_and_check :
    (∀ (vA : Expectation → Except GoErr Unit) (vE : Endpoint → Except GoErr Unit)
       (conf : JwtConf) (auth : JwtAuthenticator),
       conf.jwtAssertions.allowedAlgorithms = [] →
       newJwtAuthenticatorFromConf vA vE conf = Except.ok auth →
       auth.a.allowedAlgorithms = defaultAllowedAlgorithms)
    ∧ (defaultAllowedAlgorithms ≠ []
       ∧ ∀ alg ∈ defaultAllowedAlgorithms, isHSAlg alg = false ∧ alg ≠ "none")
    ∧ (∀ (env : JoseEnv) (a : JwtAuthenticator) (jwtRaw : String) (jwks : JWKS)
       (token : ParsedToken) (key : JWK),
       countDots jwtRaw = 2 →
       env.parseSigned jwtRaw = Except.ok token →
       lookupKeys jwks token.headers = [key] →
       a.a.isAlgorithmAllowed key.alg = false →
       a.verifyTokenAndGetClaims env jwtRaw jwks =
         Except.error (GoErr.simple (key.alg ++ " algorithm is not allowed"))) := by
  refine ⟨?_, by decide, ?_⟩
  · intro vA vE conf auth h hok
    cases hva : vA conf.jwtAssertions with
    | error e => simp [newJwtAuthenticatorFromConf, hva] at hok
    | ok u =>
      simp only [newJwtAuthenticatorFromConf, hva] at hok
      split at hok
      · cases hok
      · rw [Except.ok.injEq] at hok
        subst hok
        simp [h]
  · intro env a jwtRaw jwks token key hdots hparse hkeys halg
    simp [JwtAuthenticator.verifyTokenAndGetClaims, hdots, hparse, hkeys, halg]

/-- C7 witness: the constructor applied to `confNoAlgs` yields the defaulted
allow-list, and verifying a token whose unique key is HS256 against the
ES256-only policy fails with the algorithm-not-allowed error. -/
theorem C7_default_algorithms_witness :
    authDefaulted.a.allowedAlgorithms = defaultAllowedAlgorithms
    ∧ authOkEp.verifyTokenAndGetClaims joseEnvK1 "h.p.s" jwksHS =
      Except.error (GoErr.simple "HS256 algorithm is not allowed") := by
  constructor
  · exact (C7_default_algorithms_and_check).1 acceptAll acceptAll confNoAlgs
      authDefaulted rfl rfl
  · exact (C7_default_algorithms_and_check).2.2 joseEnvK1 authOkEp "h.p.s" jwksHS
      tokenK1 { kid := "k1", alg := "HS256" } (by decide) rfl rfl rfl

end Heimdall
